import Mathlib

/-!
Verification of the Freshrelease MCP adapter (src/server.py).

The source is a single Python module exposing eight remote issue-tracking
operations as MCP tools.  The shallow embedding below models:

* Python values that flow through the adapter (`PyVal`): strings, ints,
  booleans, None, lists and insertion-ordered dicts;
* Python exceptions relevant to the module (`PyErr`), with `pyErrStr`
  modelling `str(e)` (messages follow CPython's wording);
* the observable effects of one invocation (`Trace`): the positional
  argument lists passed to `make_request`, and the HTTP requests actually
  handed to the network layer.  Headers are constant strings
  (`Authorization: Token <env>`, `Content-Type: application/json`)
  independent of all inputs, so they are omitted from `HttpRequest`;
* the remote API as an oracle `HttpRequest → HttpResponse`;
* `make_request` including Python's positional-argument binding: the
  source defines `make_request(project_key, endpoint, method="GET",
  body=None)`, and call sites invoke it with bare positional argument
  lists, so binding itself can raise `TypeError`;
* `list_tools` and `call_tool` transcribed branch by branch.
-/

namespace Freshrelease

/-- Python values as they occur in this module (JSON-like data). -/
inductive PyVal where
  | str (s : String)
  | int (n : Int)
  | bool (b : Bool)
  | none
  | list (xs : List PyVal)
  | dict (entries : List (String × PyVal))

mutual

/-- Model of Python `repr` on `PyVal` (used by `str` on containers). -/
def pyRepr : PyVal → String
  | .str s => "\x27" ++ s ++ "\x27"
  | .int n => toString n
  | .bool b => if b then "True" else "False"
  | .none => "None"
  | .list xs => "[" ++ pyReprList xs ++ "]"
  | .dict es => "\x7b" ++ pyReprEntries es ++ "\x7d"

/-- Comma-separated `repr`s of list elements. -/
def pyReprList : List PyVal → String
  | [] => ""
  | [x] => pyRepr x
  | x :: xs => pyRepr x ++ ", " ++ pyReprList xs

/-- Comma-separated `repr`s of dict entries. -/
def pyReprEntries : List (String × PyVal) → String
  | [] => ""
  | [(k, v)] => "\x27" ++ k ++ "\x27: " ++ pyRepr v
  | (k, v) :: es => "\x27" ++ k ++ "\x27: " ++ pyRepr v ++ ", " ++ pyReprEntries es

end

/-- Model of Python `str` on `PyVal` (identity on strings, `repr` shape on
containers), as used by f-string interpolation in the source. -/
def pyStr : PyVal → String
  | .str s => s
  | v => pyRepr v

/-- Escape one character for JSON string output. -/
def jsonEscapeChar (c : Char) : String :=
  if c = '\"' then "\\\""
  else if c = '\\' then "\\\\"
  else if c = '\n' then "\\n"
  else if c = '\t' then "\\t"
  else if c = '\r' then "\\r"
  else String.singleton c

/-- Escape a string for JSON output. -/
def jsonEscape (s : String) : String :=
  String.join (s.toList.map jsonEscapeChar)

/-- `n` spaces. -/
def spaces : Nat → String
  | 0 => ""
  | n + 1 => " " ++ spaces n

mutual

/-- Model of `json.dumps(v, indent=2)` at indentation level `ind`
(the serialization applied to every successful remote response). -/
def dumps_aux : Nat → PyVal → String
  | _, .str s => "\"" ++ jsonEscape s ++ "\""
  | _, .int n => toString n
  | _, .bool b => if b then "true" else "false"
  | _, .none => "null"
  | _, .list [] => "[]"
  | ind, .list (x :: xs) =>
      "[\n" ++ dumpsItems (ind + 2) (x :: xs) ++ "\n" ++ spaces ind ++ "]"
  | _, .dict [] => "\x7b\x7d"
  | ind, .dict (e :: es) =>
      "\x7b\n" ++ dumpsEntries (ind + 2) (e :: es) ++ "\n" ++ spaces ind ++ "\x7d"

/-- Serialize list items, one per line. -/
def dumpsItems : Nat → List PyVal → String
  | _, [] => ""
  | ind, [x] => spaces ind ++ dumps_aux ind x
  | ind, x :: xs => spaces ind ++ dumps_aux ind x ++ ",\n" ++ dumpsItems ind xs

/-- Serialize dict entries, one per line. -/
def dumpsEntries : Nat → List (String × PyVal) → String
  | _, [] => ""
  | ind, [(k, v)] => spaces ind ++ "\"" ++ jsonEscape k ++ "\": " ++ dumps_aux ind v
  | ind, (k, v) :: es =>
      spaces ind ++ "\"" ++ jsonEscape k ++ "\": " ++ dumps_aux ind v ++ ",\n" ++
        dumpsEntries ind es

end

/-- Model of `json.dumps(v, indent=2)` as used in `call_tool`. -/
def dumps (v : PyVal) : String := dumps_aux 0 v

/-- Python exceptions raised by this module.  `keyError` keeps the missing
key; the other constructors keep the message text. -/
inductive PyErr where
  | typeError (msg : String)
  | valueError (msg : String)
  | nameError (msg : String)
  | keyError (key : String)
  | httpStatusError (status : Nat) (msg : String)
  | jsonDecodeError (msg : String)

/-- Model of Python `str(e)`.  For `KeyError` CPython prints the `repr` of
the missing key. -/
def pyErrStr : PyErr → String
  | .typeError msg => msg
  | .valueError msg => msg
  | .nameError msg => msg
  | .keyError key => "\x27" ++ key ++ "\x27"
  | .httpStatusError _ msg => msg
  | .jsonDecodeError msg => msg

mutual

/-- Model of Python `==` on `PyVal`. -/
def pyEq : PyVal → PyVal → Bool
  | .str a, .str b => a == b
  | .int a, .int b => a == b
  | .bool a, .bool b => a == b
  | .none, .none => true
  | .list a, .list b => pyEqList a b
  | .dict a, .dict b => pyEqEntries a b
  | _, _ => false

/-- Elementwise `pyEq` on lists. -/
def pyEqList : List PyVal → List PyVal → Bool
  | [], [] => true
  | x :: xs, y :: ys => pyEq x y && pyEqList xs ys
  | _, _ => false

/-- Elementwise `pyEq` on dict entries. -/
def pyEqEntries : List (String × PyVal) → List (String × PyVal) → Bool
  | [], [] => true
  | (k1, v1) :: xs, (k2, v2) :: ys => k1 == k2 && pyEq v1 v2 && pyEqEntries xs ys
  | _, _ => false

end

/-- One outbound HTTP request, as handed to `httpx`.  Headers are constant
and omitted (see module comment). -/
structure HttpRequest where
  method : String
  url : String
  body : Option PyVal

/-- One remote response: status code and the result of decoding the body as
JSON (`Option.none` models a body `response.json()` cannot decode). -/
structure HttpResponse where
  status : Nat
  json : Option PyVal

/-- Observable effects of one invocation: positional argument lists passed
to `make_request`, and HTTP requests actually performed. -/
structure Trace where
  helperCalls : List (List PyVal)
  httpRequests : List HttpRequest

/-- Effect monad for the adapter: threads a `Trace` and propagates Python
exceptions like `Except`. -/
def M (α : Type) : Type := Trace → Trace × Except PyErr α

instance : Monad M where
  pure a := fun t => (t, Except.ok a)
  bind m f := fun t =>
    match m t with
    | (t1, Except.ok a) => f a t1
    | (t1, Except.error e) => (t1, Except.error e)

/-- Raise a Python exception. -/
def mthrow {α : Type} (e : PyErr) : M α := fun t => (t, Except.error e)

/-- Record a call to `make_request` with its positional argument list. -/
def logHelper (args : List PyVal) : M Unit :=
  fun t => ({ t with helperCalls := t.helperCalls ++ [args] }, Except.ok ())

/-- Record one outbound HTTP request. -/
def logHttp (r : HttpRequest) : M Unit :=
  fun t => ({ t with httpRequests := t.httpRequests ++ [r] }, Except.ok ())

/-- Model of Python `try ... except Exception as e: handler e`. -/
def pyTry {α : Type} (m : M α) (handler : PyErr → M α) : M α := fun t =>
  match m t with
  | (t1, Except.ok a) => (t1, Except.ok a)
  | (t1, Except.error e) => handler e t1

/-- `BASE_URL` from src/server.py line 9. -/
def BASE_URL : String := "https://freshworks.freshrelease.com"

/-- Message of the `HTTPStatusError` raised by `response.raise_for_status()`
(modelled after httpx, which raises for every non-2xx status). -/
def statusErrMsg (status : Nat) (url : String) : String :=
  "HTTP status error " ++ toString status ++ " for url " ++ url

/-- `response.raise_for_status()`: succeed on a 2xx status, raise
`HTTPStatusError` otherwise (src/server.py line 31). -/
def raiseForStatus (resp : HttpResponse) (url : String) : M Unit :=
  if 200 ≤ resp.status ∧ resp.status < 300 then pure ()
  else mthrow (.httpStatusError resp.status (statusErrMsg resp.status url))

/-- `response.json()`: return the decoded body or raise (src/server.py
line 32). -/
def responseJson (resp : HttpResponse) : M PyVal :=
  match resp.json with
  | some v => pure v
  | Option.none => mthrow (.jsonDecodeError "Expecting value: line 1 column 1 (char 0)")

/-- `httpx` with `json=body`: `body=None` sends no JSON body. -/
def pyJsonBody : PyVal → Option PyVal
  | .none => Option.none
  | b => some b

/-- Body of `make_request` (src/server.py lines 13-32) with its parameters
`project_key`, `endpoint`, `method`, `body` already bound.  The URL is the
f-string `f"{BASE_URL}/{project_key}{endpoint}"`; the method dispatch
mirrors the `if method == "GET" / elif "POST" / elif "PUT" / else raise
ValueError` chain (Python `==` modelled by `pyEq`). -/
def makeRequestBound (remote : HttpRequest → HttpResponse)
    (project_key endpoint method body : PyVal) : M PyVal := do
  let url := BASE_URL ++ "/" ++ pyStr project_key ++ pyStr endpoint
  if pyEq method (.str "GET") then do
    let req : HttpRequest := ⟨"GET", url, Option.none⟩
    logHttp req
    let response := remote req
    raiseForStatus response url
    responseJson response
  else if pyEq method (.str "POST") then do
    let req : HttpRequest := ⟨"POST", url, pyJsonBody body⟩
    logHttp req
    let response := remote req
    raiseForStatus response url
    responseJson response
  else if pyEq method (.str "PUT") then do
    let req : HttpRequest := ⟨"PUT", url, pyJsonBody body⟩
    logHttp req
    let response := remote req
    raiseForStatus response url
    responseJson response
  else
    mthrow (.valueError ("Unsupported method: " ++ pyStr method))

/-- A call to `make_request` with a bare positional argument list, including
Python's binding of positionals against
`make_request(project_key, endpoint, method="GET", body=None)`
(src/server.py line 13): fewer than two positionals raise `TypeError`
before the function body runs. -/
def make_request (remote : HttpRequest → HttpResponse)
    (args : List PyVal) : M PyVal := do
  logHelper args
  match args with
  | [] => mthrow (.typeError
      "make_request() missing 2 required positional arguments: \x27project_key\x27 and \x27endpoint\x27")
  | [_] => mthrow (.typeError
      "make_request() missing 1 required positional argument: \x27endpoint\x27")
  | [pk, ep] => makeRequestBound remote pk ep (.str "GET") .none
  | [pk, ep, m] => makeRequestBound remote pk ep m .none
  | [pk, ep, m, b] => makeRequestBound remote pk ep m b
  | _ => mthrow (.typeError
      "make_request() takes from 2 to 4 positional arguments but more were given")

/-- First-match lookup in an insertion-ordered dict. -/
def dictLookup : List (String × PyVal) → String → Option PyVal
  | [], _ => Option.none
  | (k, v) :: rest, key => if k = key then some v else dictLookup rest key

/-- Python `d[key]`: the value, or `KeyError` when absent. -/
def dictGetItem (d : List (String × PyVal)) (key : String) : M PyVal :=
  match dictLookup d key with
  | some v => pure v
  | Option.none => mthrow (.keyError key)

/-- Python `d.get(key, dflt)`. -/
def dictGet (d : List (String × PyVal)) (key : String) (dflt : PyVal) : PyVal :=
  (dictLookup d key).getD dflt

/-- One MCP `TextContent` item (`TextContent(type="text", text=...)`). -/
structure TextContent where
  type : String
  text : String

/-- One MCP `Tool` descriptor: name, description, JSON-Schema input
contract (the schema itself is a `PyVal` dict, transcribed verbatim). -/
structure Tool where
  name : String
  description : String
  inputSchema : PyVal

/-- `list_tools` from src/server.py lines 34-179, transcribed field by
field. -/
def list_tools : List Tool :=
  [ { name := "freshrelease_get_users"
      description := "Get all users in the Freshrelease project with pagination"
      inputSchema := .dict
        [ ("type", .str "object")
        , ("properties", .dict
            [ ("page", .dict
                [ ("type", .str "number")
                , ("description", .str "Page number for pagination")
                , ("default", .int 1) ])
            , ("limit", .dict
                [ ("type", .str "number")
                , ("description", .str "Number of users per page")
                , ("default", .int 30) ]) ]) ] }
  , { name := "freshrelease_get_statuses"
      description := "Get all statuses in the project"
      inputSchema := .dict
        [ ("type", .str "object")
        , ("properties", .dict []) ] }
  , { name := "freshrelease_get_issue_types"
      description := "Get all issue types available in the project"
      inputSchema := .dict
        [ ("type", .str "object")
        , ("properties", .dict []) ] }
  , { name := "freshrelease_get_issue"
      description := "Get a specific issue by its key (e.g., FBOTS-47941)"
      inputSchema := .dict
        [ ("type", .str "object")
        , ("properties", .dict
            [ ("issue_key", .dict
                [ ("type", .str "string")
                , ("description", .str "Issue key (e.g., FBOTS-47941)") ]) ])
        , ("required", .list [.str "issue_key"]) ] }
  , { name := "freshrelease_create_issue"
      description := "Create a new issue in Freshrelease"
      inputSchema := .dict
        [ ("type", .str "object")
        , ("properties", .dict
            [ ("title", .dict
                [ ("type", .str "string")
                , ("description", .str "Issue title") ])
            , ("description", .dict
                [ ("type", .str "string")
                , ("description", .str "Issue description") ])
            , ("issue_type_id", .dict
                [ ("type", .str "string")
                , ("description", .str "Issue type ID (e.g., \x2714\x27 for task)") ])
            , ("owner_id", .dict
                [ ("type", .str "string")
                , ("description", .str "Owner user ID") ])
            , ("project_id", .dict
                [ ("type", .str "string")
                , ("description", .str "Project ID (e.g., \x27280\x27)") ])
            , ("custom_fields", .dict
                [ ("type", .str "object")
                , ("description", .str "Custom fields as key-value pairs") ]) ])
        , ("required", .list
            [ .str "title", .str "description", .str "issue_type_id"
            , .str "owner_id", .str "project_id" ]) ] }
  , { name := "freshrelease_update_issue"
      description := "Update an existing Freshrelease issue"
      inputSchema := .dict
        [ ("type", .str "object")
        , ("properties", .dict
            [ ("issue_key", .dict
                [ ("type", .str "string")
                , ("description", .str "Issue key (e.g., FBOTS-48937)") ])
            , ("description", .dict
                [ ("type", .str "string")
                , ("description", .str "Updated issue description") ])
            , ("issue_type_id", .dict
                [ ("type", .str "string")
                , ("description", .str "Issue type ID") ])
            , ("custom_fields", .dict
                [ ("type", .str "object")
                , ("description", .str "Custom fields to update") ]) ])
        , ("required", .list [.str "issue_key"]) ] }
  , { name := "freshrelease_get_comments"
      description := "Get all comments on a specific issue"
      inputSchema := .dict
        [ ("type", .str "object")
        , ("properties", .dict
            [ ("issue_id", .dict
                [ ("type", .str "string")
                , ("description", .str "Issue ID (numeric, e.g., \x272563487\x27)") ]) ])
        , ("required", .list [.str "issue_id"]) ] }
  , { name := "freshrelease_add_comment"
      description := "Add a comment to a specific issue"
      inputSchema := .dict
        [ ("type", .str "object")
        , ("properties", .dict
            [ ("issue_id", .dict
                [ ("type", .str "string")
                , ("description", .str "Issue ID (numeric, e.g., \x272563487\x27)") ])
            , ("content", .dict
                [ ("type", .str "string")
                , ("description", .str "Comment content") ]) ])
        , ("required", .list [.str "issue_id", .str "content"]) ] }
  ]

/-- The names declared in the Catalog. -/
def toolNames : List String := list_tools.map (fun t => t.name)

/-- How many descriptors in the Catalog carry the name `n`. -/
def countName (n : String) : Nat := list_tools.countP (fun t => t.name == n)

/-- The input schema of the descriptor named `n` (`PyVal.none` when no such
descriptor exists). -/
def toolSchema (n : String) : PyVal :=
  match list_tools.find? (fun t => t.name == n) with
  | some t => t.inputSchema
  | Option.none => PyVal.none

/-- The `required` entry of a schema, when declared. -/
def schemaRequired (s : PyVal) : Option PyVal :=
  match s with
  | .dict es => dictLookup es "required"
  | _ => Option.none

/-- The names of a schema's declared properties, in declaration order. -/
def schemaPropNames (s : PyVal) : List String :=
  match s with
  | .dict es =>
      match dictLookup es "properties" with
      | some (.dict ps) => ps.map (fun e => e.1)
      | _ => []
  | _ => []

/-- The declared `default` of property `p` of schema `s`, when any. -/
def schemaPropDefault (s : PyVal) (p : String) : Option PyVal :=
  match s with
  | .dict es =>
      match dictLookup es "properties" with
      | some (.dict ps) =>
          match dictLookup ps p with
          | some (.dict pd) => dictLookup pd "default"
          | _ => Option.none
      | _ => Option.none
  | _ => Option.none

/-- The `try`-block of `call_tool` (src/server.py lines 184-244), one
branch per `if name == ...` case, each statement in source order. -/
def call_tool_body (remote : HttpRequest → HttpResponse) (name : String)
    (arguments : List (String × PyVal)) : M (List TextContent) :=
  if name = "freshrelease_get_users" then do
    let page := dictGet arguments "page" (.int 1)
    let result ← make_request remote [.str ("/users?page=" ++ pyStr page)]
    pure [⟨"text", dumps result⟩]
  else if name = "freshrelease_get_statuses" then do
    let result ← make_request remote [.str "/statuses"]
    pure [⟨"text", dumps result⟩]
  else if name = "freshrelease_get_issue_types" then do
    let result ← make_request remote [.str "/issue_types"]
    pure [⟨"text", dumps result⟩]
  else if name = "freshrelease_get_issue" then do
    let issue_key ← dictGetItem arguments "issue_key"
    let result ← make_request remote [.str ("/issues/" ++ pyStr issue_key)]
    pure [⟨"text", dumps result⟩]
  else if name = "freshrelease_create_issue" then do
    let title ← dictGetItem arguments "title"
    let description ← dictGetItem arguments "description"
    let key ← (mthrow (.nameError "name \x27PROJECT_KEY\x27 is not defined") : M PyVal)
    let issue_type_id ← dictGetItem arguments "issue_type_id"
    let owner_id ← dictGetItem arguments "owner_id"
    let project_id ← dictGetItem arguments "project_id"
    let custom_field := dictGet arguments "custom_fields" (.dict [])
    let body := PyVal.dict
      [ ("issue", PyVal.dict
          [ ("title", title), ("description", description), ("key", key)
          , ("issue_type_id", issue_type_id), ("owner_id", owner_id)
          , ("project_id", project_id), ("custom_field", custom_field) ]) ]
    let result ← make_request remote [.str "/issues", .str "POST", body]
    pure [⟨"text", dumps result⟩]
  else if name = "freshrelease_update_issue" then do
    let issue_key ← dictGetItem arguments "issue_key"
    let issueFields := [("key", issue_key)]
    let issueFields :=
      match dictLookup arguments "description" with
      | some v => issueFields ++ [("description", v)]
      | Option.none => issueFields
    let issueFields :=
      match dictLookup arguments "issue_type_id" with
      | some v => issueFields ++ [("issue_type_id", v)]
      | Option.none => issueFields
    let issueFields :=
      match dictLookup arguments "custom_fields" with
      | some v => issueFields ++ [("custom_field", v)]
      | Option.none => issueFields
    let body := PyVal.dict [("issue", PyVal.dict issueFields)]
    let result ← make_request remote
      [.str ("/issues/" ++ pyStr issue_key), .str "PUT", body]
    pure [⟨"text", dumps result⟩]
  else if name = "freshrelease_get_comments" then do
    let issue_id ← dictGetItem arguments "issue_id"
    let result ← make_request remote [.str ("/issues/" ++ pyStr issue_id ++ "/comments")]
    pure [⟨"text", dumps result⟩]
  else if name = "freshrelease_add_comment" then do
    let issue_id ← dictGetItem arguments "issue_id"
    let content ← dictGetItem arguments "content"
    let body := PyVal.dict [("content", content)]
    let result ← make_request remote
      [.str ("/issues/" ++ pyStr issue_id ++ "/comments"), .str "POST", body]
    pure [⟨"text", dumps result⟩]
  else
    mthrow (.valueError ("Unknown tool: " ++ name))

/-- `call_tool` (src/server.py lines 181-247): the dispatch wrapped in
`try ... except Exception as e: return [TextContent("Error: " + str(e))]`. -/
def call_tool (remote : HttpRequest → HttpResponse) (name : String)
    (arguments : List (String × PyVal)) : M (List TextContent) :=
  pyTry (call_tool_body remote name arguments)
    (fun e => pure [⟨"text", "Error: " ++ pyErrStr e⟩])

/-- Run one invocation from an empty trace. -/
def runCallTool (remote : HttpRequest → HttpResponse) (name : String)
    (arguments : List (String × PyVal)) :
    Trace × Except PyErr (List TextContent) :=
  call_tool remote name arguments ⟨[], []⟩

/-- Outcome of `raise_for_status()` followed by `response.json()` for one
response: parsed JSON on a 2xx status, the appropriate exception
otherwise. -/
def httpOutcome (resp : HttpResponse) (url : String) : Except PyErr PyVal :=
  if 200 ≤ resp.status ∧ resp.status < 300 then
    match resp.json with
    | some v => Except.ok v
    | Option.none => Except.error (.jsonDecodeError "Expecting value: line 1 column 1 (char 0)")
  else
    Except.error (.httpStatusError resp.status (statusErrMsg resp.status url))

/-- Written from the claim C5's words: the contribution of one optional
argument to the update body — the mapped field when the source argument is
present, nothing when absent. -/
def specOptField (args : List (String × PyVal)) (src dst : String) :
    List (String × PyVal) :=
  match dictLookup args src with
  | some v => [(dst, v)]
  | Option.none => []

/-- Written from the claim C5's words: the PUT body for `update_issue` —
`{issue: {key: issue_key}}` extended with exactly those of `description`,
`issue_type_id`, `custom_field` whose source argument (`description`,
`issue_type_id`, `custom_fields`) is present. -/
def c5Body (args : List (String × PyVal)) (k : PyVal) : PyVal :=
  .dict
    [ ("issue", .dict
        ([("key", k)] ++ specOptField args "description" "description"
          ++ specOptField args "issue_type_id" "issue_type_id"
          ++ specOptField args "custom_fields" "custom_field")) ]

/-- A remote oracle that always answers 200 with an empty JSON object. -/
def remote200 : HttpRequest → HttpResponse := fun _ => ⟨200, some (.dict [])⟩

/-- A remote oracle that always answers 404. -/
def remote404 : HttpRequest → HttpResponse := fun _ => ⟨404, some (.dict [])⟩

/-- The `create_issue` argument mapping named by the spec's test property:
all five required fields, `custom_fields` omitted. -/
def argsCreate : List (String × PyVal) :=
  [ ("title", .str "T"), ("description", .str "D")
  , ("issue_type_id", .str "14"), ("owner_id", .str "1")
  , ("project_id", .str "280") ]

/-- The `update_issue` argument mapping named by the spec's test property:
only `issue_key` and `description`. -/
def argsUpdateX : List (String × PyVal) :=
  [("issue_key", .str "X"), ("description", .str "new")]

theorem pure_apply {α : Type} (a : α) (t : Trace) :
    (pure a : M α) t = (t, Except.ok a) := rfl

theorem bind_apply {α β : Type} (m : M α) (f : α → M β) (t : Trace) :
    (m >>= f) t =
      match m t with
      | (t1, Except.ok a) => f a t1
      | (t1, Except.error e) => (t1, Except.error e) := rfl

theorem dictGetItem_some {d : List (String × PyVal)} {key : String} {v : PyVal}
    (h : dictLookup d key = some v) : dictGetItem d key = pure v := by
  unfold dictGetItem
  rw [h]

theorem dictGetItem_none {d : List (String × PyVal)} {key : String}
    (h : dictLookup d key = Option.none) :
    dictGetItem d key = mthrow (.keyError key) := by
  unfold dictGetItem
  rw [h]

theorem body_get_users (remote : HttpRequest → HttpResponse)
    (args : List (String × PyVal)) (t : Trace) :
    call_tool_body remote "freshrelease_get_users" args t =
      ({ t with helperCalls :=
          t.helperCalls ++ [[.str ("/users?page=" ++ pyStr (dictGet args "page" (.int 1)))]] },
       Except.error (.typeError
         "make_request() missing 1 required positional argument: \x27endpoint\x27")) := rfl

theorem body_get_statuses (remote : HttpRequest → HttpResponse)
    (args : List (String × PyVal)) (t : Trace) :
    call_tool_body remote "freshrelease_get_statuses" args t =
      ({ t with helperCalls := t.helperCalls ++ [[.str "/statuses"]] },
       Except.error (.typeError
         "make_request() missing 1 required positional argument: \x27endpoint\x27")) := rfl

theorem body_get_issue_types (remote : HttpRequest → HttpResponse)
    (args : List (String × PyVal)) (t : Trace) :
    call_tool_body remote "freshrelease_get_issue_types" args t =
      ({ t with helperCalls := t.helperCalls ++ [[.str "/issue_types"]] },
       Except.error (.typeError
         "make_request() missing 1 required positional argument: \x27endpoint\x27")) := rfl

theorem body_get_issue_none (remote : HttpRequest → HttpResponse)
    (args : List (String × PyVal)) (t : Trace)
    (h : dictLookup args "issue_key" = Option.none) :
    call_tool_body remote "freshrelease_get_issue" args t =
      (t, Except.error (.keyError "issue_key")) := by
  have e1 : call_tool_body remote "freshrelease_get_issue" args t =
      (dictGetItem args "issue_key" >>= fun issue_key =>
        make_request remote [.str ("/issues/" ++ pyStr issue_key)] >>= fun result =>
          pure [(⟨"text", dumps result⟩ : TextContent)]) t := rfl
  rw [e1, dictGetItem_none h]
  rfl

theorem body_get_issue_some (remote : HttpRequest → HttpResponse)
    (args : List (String × PyVal)) (t : Trace) (k : PyVal)
    (h : dictLookup args "issue_key" = some k) :
    call_tool_body remote "freshrelease_get_issue" args t =
      ({ t with helperCalls := t.helperCalls ++ [[.str ("/issues/" ++ pyStr k)]] },
       Except.error (.typeError
         "make_request() missing 1 required positional argument: \x27endpoint\x27")) := by
  have e1 : call_tool_body remote "freshrelease_get_issue" args t =
      (dictGetItem args "issue_key" >>= fun issue_key =>
        make_request remote [.str ("/issues/" ++ pyStr issue_key)] >>= fun result =>
          pure [(⟨"text", dumps result⟩ : TextContent)]) t := rfl
  rw [e1, dictGetItem_some h]
  rfl

theorem body_create_no_title (remote : HttpRequest → HttpResponse)
    (args : List (String × PyVal)) (t : Trace)
    (h : dictLookup args "title" = Option.none) :
    call_tool_body remote "freshrelease_create_issue" args t =
      (t, Except.error (.keyError "title")) := by
  have e1 : call_tool_body remote "freshrelease_create_issue" args t =
      (dictGetItem args "title" >>= fun title =>
        dictGetItem args "description" >>= fun description =>
        (mthrow (.nameError "name \x27PROJECT_KEY\x27 is not defined") : M PyVal) >>= fun key =>
        dictGetItem args "issue_type_id" >>= fun issue_type_id =>
        dictGetItem args "owner_id" >>= fun owner_id =>
        dictGetItem args "project_id" >>= fun project_id =>
        make_request remote
          [ .str "/issues", .str "POST",
            PyVal.dict [("issue", PyVal.dict
              [ ("title", title), ("description", description), ("key", key)
              , ("issue_type_id", issue_type_id), ("owner_id", owner_id)
              , ("project_id", project_id)
              , ("custom_field", dictGet args "custom_fields" (.dict [])) ])] ] >>=
          fun result =>
        pure [(⟨"text", dumps result⟩ : TextContent)]) t := rfl
  rw [e1, dictGetItem_none h]
  rfl

theorem body_create_no_description (remote : HttpRequest → HttpResponse)
    (args : List (String × PyVal)) (t : Trace) (a : PyVal)
    (ht : dictLookup args "title" = some a)
    (hd : dictLookup args "description" = Option.none) :
    call_tool_body remote "freshrelease_create_issue" args t =
      (t, Except.error (.keyError "description")) := by
  have e1 : call_tool_body remote "freshrelease_create_issue" args t =
      (dictGetItem args "title" >>= fun title =>
        dictGetItem args "description" >>= fun description =>
        (mthrow (.nameError "name \x27PROJECT_KEY\x27 is not defined") : M PyVal) >>= fun key =>
        dictGetItem args "issue_type_id" >>= fun issue_type_id =>
        dictGetItem args "owner_id" >>= fun owner_id =>
        dictGetItem args "project_id" >>= fun project_id =>
        make_request remote
          [ .str "/issues", .str "POST",
            PyVal.dict [("issue", PyVal.dict
              [ ("title", title), ("description", description), ("key", key)
              , ("issue_type_id", issue_type_id), ("owner_id", owner_id)
              , ("project_id", project_id)
              , ("custom_field", dictGet args "custom_fields" (.dict [])) ])] ] >>=
          fun result =>
        pure [(⟨"text", dumps result⟩ : TextContent)]) t := rfl
  rw [e1, dictGetItem_some ht, dictGetItem_none hd]
  rfl

theorem body_create_name_error (remote : HttpRequest → HttpResponse)
    (args : List (String × PyVal)) (t : Trace) (a b : PyVal)
    (ht : dictLookup args "title" = some a)
    (hd : dictLookup args "description" = some b) :
    call_tool_body remote "freshrelease_create_issue" args t =
      (t, Except.error (.nameError "name \x27PROJECT_KEY\x27 is not defined")) := by
  have e1 : call_tool_body remote "freshrelease_create_issue" args t =
      (dictGetItem args "title" >>= fun title =>
        dictGetItem args "description" >>= fun description =>
        (mthrow (.nameError "name \x27PROJECT_KEY\x27 is not defined") : M PyVal) >>= fun key =>
        dictGetItem args "issue_type_id" >>= fun issue_type_id =>
        dictGetItem args "owner_id" >>= fun owner_id =>
        dictGetItem args "project_id" >>= fun project_id =>
        make_request remote
          [ .str "/issues", .str "POST",
            PyVal.dict [("issue", PyVal.dict
              [ ("title", title), ("description", description), ("key", key)
              , ("issue_type_id", issue_type_id), ("owner_id", owner_id)
              , ("project_id", project_id)
              , ("custom_field", dictGet args "custom_fields" (.dict [])) ])] ] >>=
          fun result =>
        pure [(⟨"text", dumps result⟩ : TextContent)]) t := rfl
  rw [e1, dictGetItem_some ht, dictGetItem_some hd]
  rfl

theorem body_update_none (remote : HttpRequest → HttpResponse)
    (args : List (String × PyVal)) (t : Trace)
    (h : dictLookup args "issue_key" = Option.none) :
    call_tool_body remote "freshrelease_update_issue" args t =
      (t, Except.error (.keyError "issue_key")) := by
  have e1 : call_tool_body remote "freshrelease_update_issue" args t =
      (dictGetItem args "issue_key" >>= fun issue_key =>
        let issueFields := [("key", issue_key)]
        let issueFields :=
          match dictLookup args "description" with
          | some v => issueFields ++ [("description", v)]
          | Option.none => issueFields
        let issueFields :=
          match dictLookup args "issue_type_id" with
          | some v => issueFields ++ [("issue_type_id", v)]
          | Option.none => issueFields
        let issueFields :=
          match dictLookup args "custom_fields" with
          | some v => issueFields ++ [("custom_field", v)]
          | Option.none => issueFields
        make_request remote
          [ .str ("/issues/" ++ pyStr issue_key), .str "PUT",
            PyVal.dict [("issue", PyVal.dict issueFields)] ] >>= fun result =>
        pure [(⟨"text", dumps result⟩ : TextContent)]) t := rfl
  rw [e1, dictGetItem_none h]
  rfl

theorem body_update_some (remote : HttpRequest → HttpResponse)
    (args : List (String × PyVal)) (t : Trace) (k : PyVal)
    (h : dictLookup args "issue_key" = some k) :
    call_tool_body remote "freshrelease_update_issue" args t =
      ({ t with helperCalls := t.helperCalls ++
          [[.str ("/issues/" ++ pyStr k), .str "PUT", c5Body args k]] },
       Except.error (.valueError ("Unsupported method: " ++ pyStr (c5Body args k)))) := by
  have e1 : call_tool_body remote "freshrelease_update_issue" args t =
      (dictGetItem args "issue_key" >>= fun issue_key =>
        let issueFields := [("key", issue_key)]
        let issueFields :=
          match dictLookup args "description" with
          | some v => issueFields ++ [("description", v)]
          | Option.none => issueFields
        let issueFields :=
          match dictLookup args "issue_type_id" with
          | some v => issueFields ++ [("issue_type_id", v)]
          | Option.none => issueFields
        let issueFields :=
          match dictLookup args "custom_fields" with
          | some v => issueFields ++ [("custom_field", v)]
          | Option.none => issueFields
        make_request remote
          [ .str ("/issues/" ++ pyStr issue_key), .str "PUT",
            PyVal.dict [("issue", PyVal.dict issueFields)] ] >>= fun result =>
        pure [(⟨"text", dumps result⟩ : TextContent)]) t := rfl
  rw [e1, dictGetItem_some h]
  rcases hd : dictLookup args "description" with _ | dv <;>
    rcases hti : dictLookup args "issue_type_id" with _ | tv <;>
      rcases hcf : dictLookup args "custom_fields" with _ | cv <;>
        simp only [c5Body, specOptField, hd, hti, hcf] <;> rfl

theorem body_get_comments_none (remote : HttpRequest → HttpResponse)
    (args : List (String × PyVal)) (t : Trace)
    (h : dictLookup args "issue_id" = Option.none) :
    call_tool_body remote "freshrelease_get_comments" args t =
      (t, Except.error (.keyError "issue_id")) := by
  have e1 : call_tool_body remote "freshrelease_get_comments" args t =
      (dictGetItem args "issue_id" >>= fun issue_id =>
        make_request remote [.str ("/issues/" ++ pyStr issue_id ++ "/comments")] >>=
          fun result =>
        pure [(⟨"text", dumps result⟩ : TextContent)]) t := rfl
  rw [e1, dictGetItem_none h]
  rfl

theorem body_get_comments_some (remote : HttpRequest → HttpResponse)
    (args : List (String × PyVal)) (t : Trace) (i : PyVal)
    (h : dictLookup args "issue_id" = some i) :
    call_tool_body remote "freshrelease_get_comments" args t =
      ({ t with helperCalls :=
          t.helperCalls ++ [[.str ("/issues/" ++ pyStr i ++ "/comments")]] },
       Except.error (.typeError
         "make_request() missing 1 required positional argument: \x27endpoint\x27")) := by
  have e1 : call_tool_body remote "freshrelease_get_comments" args t =
      (dictGetItem args "issue_id" >>= fun issue_id =>
        make_request remote [.str ("/issues/" ++ pyStr issue_id ++ "/comments")] >>=
          fun result =>
        pure [(⟨"text", dumps result⟩ : TextContent)]) t := rfl
  rw [e1, dictGetItem_some h]
  rfl

theorem body_add_comment_no_id (remote : HttpRequest → HttpResponse)
    (args : List (String × PyVal)) (t : Trace)
    (h : dictLookup args "issue_id" = Option.none) :
    call_tool_body remote "freshrelease_add_comment" args t =
      (t, Except.error (.keyError "issue_id")) := by
  have e1 : call_tool_body remote "freshrelease_add_comment" args t =
      (dictGetItem args "issue_id" >>= fun issue_id =>
        dictGetItem args "content" >>= fun content =>
        make_request remote
          [ .str ("/issues/" ++ pyStr issue_id ++ "/comments"), .str "POST",
            PyVal.dict [("content", content)] ] >>= fun result =>
        pure [(⟨"text", dumps result⟩ : TextContent)]) t := rfl
  rw [e1, dictGetItem_none h]
  rfl

theorem body_add_comment_no_content (remote : HttpRequest → HttpResponse)
    (args : List (String × PyVal)) (t : Trace) (i : PyVal)
    (hi : dictLookup args "issue_id" = some i)
    (hc : dictLookup args "content" = Option.none) :
    call_tool_body remote "freshrelease_add_comment" args t =
      (t, Except.error (.keyError "content")) := by
  have e1 : call_tool_body remote "freshrelease_add_comment" args t =
      (dictGetItem args "issue_id" >>= fun issue_id =>
        dictGetItem args "content" >>= fun content =>
        make_request remote
          [ .str ("/issues/" ++ pyStr issue_id ++ "/comments"), .str "POST",
            PyVal.dict [("content", content)] ] >>= fun result =>
        pure [(⟨"text", dumps result⟩ : TextContent)]) t := rfl
  rw [e1, dictGetItem_some hi, dictGetItem_none hc]
  rfl

theorem body_add_comment_some (remote : HttpRequest → HttpResponse)
    (args : List (String × PyVal)) (t : Trace) (i c : PyVal)
    (hi : dictLookup args "issue_id" = some i)
    (hc : dictLookup args "content" = some c) :
    call_tool_body remote "freshrelease_add_comment" args t =
      ({ t with helperCalls := t.helperCalls ++
          [[ .str ("/issues/" ++ pyStr i ++ "/comments"), .str "POST",
             PyVal.dict [("content", c)] ]] },
       Except.error (.valueError
         ("Unsupported method: " ++ pyStr (PyVal.dict [("content", c)])))) := by
  have e1 : call_tool_body remote "freshrelease_add_comment" args t =
      (dictGetItem args "issue_id" >>= fun issue_id =>
        dictGetItem args "content" >>= fun content =>
        make_request remote
          [ .str ("/issues/" ++ pyStr issue_id ++ "/comments"), .str "POST",
            PyVal.dict [("content", content)] ] >>= fun result =>
        pure [(⟨"text", dumps result⟩ : TextContent)]) t := rfl
  rw [e1, dictGetItem_some hi, dictGetItem_some hc]
  rfl

theorem body_unknown (remote : HttpRequest → HttpResponse) (name : String)
    (args : List (String × PyVal)) (t : Trace)
    (h1 : name ≠ "freshrelease_get_users")
    (h2 : name ≠ "freshrelease_get_statuses")
    (h3 : name ≠ "freshrelease_get_issue_types")
    (h4 : name ≠ "freshrelease_get_issue")
    (h5 : name ≠ "freshrelease_create_issue")
    (h6 : name ≠ "freshrelease_update_issue")
    (h7 : name ≠ "freshrelease_get_comments")
    (h8 : name ≠ "freshrelease_add_comment") :
    call_tool_body remote name args t =
      (t, Except.error (.valueError ("Unknown tool: " ++ name))) := by
  unfold call_tool_body
  rw [if_neg h1, if_neg h2, if_neg h3, if_neg h4, if_neg h5, if_neg h6,
    if_neg h7, if_neg h8]
  rfl

theorem body_fails (remote : HttpRequest → HttpResponse) (name : String)
    (args : List (String × PyVal)) (t : Trace) :
    ∃ t1 e, call_tool_body remote name args t = (t1, Except.error e) ∧
      t1.httpRequests = t.httpRequests := by
  by_cases h1 : name = "freshrelease_get_users"
  · subst h1
    exact ⟨_, _, body_get_users remote args t, rfl⟩
  by_cases h2 : name = "freshrelease_get_statuses"
  · subst h2
    exact ⟨_, _, body_get_statuses remote args t, rfl⟩
  by_cases h3 : name = "freshrelease_get_issue_types"
  · subst h3
    exact ⟨_, _, body_get_issue_types remote args t, rfl⟩
  by_cases h4 : name = "freshrelease_get_issue"
  · subst h4
    rcases hk : dictLookup args "issue_key" with _ | k
    · exact ⟨_, _, body_get_issue_none remote args t hk, rfl⟩
    · exact ⟨_, _, body_get_issue_some remote args t k hk, rfl⟩
  by_cases h5 : name = "freshrelease_create_issue"
  · subst h5
    rcases ht : dictLookup args "title" with _ | a
    · exact ⟨_, _, body_create_no_title remote args t ht, rfl⟩
    rcases hd : dictLookup args "description" with _ | b
    · exact ⟨_, _, body_create_no_description remote args t a ht hd, rfl⟩
    · exact ⟨_, _, body_create_name_error remote args t a b ht hd, rfl⟩
  by_cases h6 : name = "freshrelease_update_issue"
  · subst h6
    rcases hk : dictLookup args "issue_key" with _ | k
    · exact ⟨_, _, body_update_none remote args t hk, rfl⟩
    · exact ⟨_, _, body_update_some remote args t k hk, rfl⟩
  by_cases h7 : name = "freshrelease_get_comments"
  · subst h7
    rcases hi : dictLookup args "issue_id" with _ | i
    · exact ⟨_, _, body_get_comments_none remote args t hi, rfl⟩
    · exact ⟨_, _, body_get_comments_some remote args t i hi, rfl⟩
  by_cases h8 : name = "freshrelease_add_comment"
  · subst h8
    rcases hi : dictLookup args "issue_id" with _ | i
    · exact ⟨_, _, body_add_comment_no_id remote args t hi, rfl⟩
    rcases hc : dictLookup args "content" with _ | c
    · exact ⟨_, _, body_add_comment_no_content remote args t i hi hc, rfl⟩
    · exact ⟨_, _, body_add_comment_some remote args t i c hi hc, rfl⟩
  · exact ⟨_, _, body_unknown remote name args t h1 h2 h3 h4 h5 h6 h7 h8, rfl⟩

theorem call_tool_run (remote : HttpRequest → HttpResponse) (name : String)
    (args : List (String × PyVal)) :
    ∃ t1 e, call_tool_body remote name args ⟨[], []⟩ = (t1, Except.error e) ∧
      runCallTool remote name args =
        (t1, Except.ok [⟨"text", "Error: " ++ pyErrStr e⟩]) ∧
      t1.httpRequests = [] := by
  obtain ⟨t1, e, hb, hh⟩ := body_fails remote name args ⟨[], []⟩
  refine ⟨t1, e, hb, ?_, hh⟩
  unfold runCallTool call_tool pyTry
  rw [hb]
  rfl

theorem pyJsonBody_ne {bd : PyVal} (h : bd ≠ .none) : pyJsonBody bd = some bd := by
  cases bd
  case none => exact absurd rfl h
  all_goals rfl

theorem roundTrip (resp : HttpResponse) (url : String) (t : Trace) :
    ((raiseForStatus resp url) >>= fun _ => responseJson resp) t =
      (t, httpOutcome resp url) := by
  unfold raiseForStatus httpOutcome
  by_cases h : 200 ≤ resp.status ∧ resp.status < 300
  · rw [if_pos h, if_pos h]
    rcases hj : resp.json with _ | v <;> simp only [responseJson, hj] <;> rfl
  · rw [if_neg h, if_neg h]
    rfl

theorem mrb_get (remote : HttpRequest → HttpResponse) (pkv epv bd : PyVal)
    (t : Trace) :
    makeRequestBound remote pkv epv (.str "GET") bd t =
      ({ t with httpRequests := t.httpRequests ++
          [⟨"GET", BASE_URL ++ "/" ++ pyStr pkv ++ pyStr epv, Option.none⟩] },
       httpOutcome
         (remote ⟨"GET", BASE_URL ++ "/" ++ pyStr pkv ++ pyStr epv, Option.none⟩)
         (BASE_URL ++ "/" ++ pyStr pkv ++ pyStr epv)) := by
  have e1 : makeRequestBound remote pkv epv (.str "GET") bd t =
      (logHttp ⟨"GET", BASE_URL ++ "/" ++ pyStr pkv ++ pyStr epv, Option.none⟩ >>=
        fun _ =>
          (raiseForStatus
              (remote ⟨"GET", BASE_URL ++ "/" ++ pyStr pkv ++ pyStr epv, Option.none⟩)
              (BASE_URL ++ "/" ++ pyStr pkv ++ pyStr epv) >>= fun _ =>
            responseJson
              (remote ⟨"GET", BASE_URL ++ "/" ++ pyStr pkv ++ pyStr epv, Option.none⟩))) t :=
    rfl
  rw [e1]
  exact roundTrip _ _ _

theorem mrb_post (remote : HttpRequest → HttpResponse) (pkv epv bd : PyVal)
    (t : Trace) :
    makeRequestBound remote pkv epv (.str "POST") bd t =
      ({ t with httpRequests := t.httpRequests ++
          [⟨"POST", BASE_URL ++ "/" ++ pyStr pkv ++ pyStr epv, pyJsonBody bd⟩] },
       httpOutcome
         (remote ⟨"POST", BASE_URL ++ "/" ++ pyStr pkv ++ pyStr epv, pyJsonBody bd⟩)
         (BASE_URL ++ "/" ++ pyStr pkv ++ pyStr epv)) := by
  have e1 : makeRequestBound remote pkv epv (.str "POST") bd t =
      (logHttp ⟨"POST", BASE_URL ++ "/" ++ pyStr pkv ++ pyStr epv, pyJsonBody bd⟩ >>=
        fun _ =>
          (raiseForStatus
              (remote ⟨"POST", BASE_URL ++ "/" ++ pyStr pkv ++ pyStr epv, pyJsonBody bd⟩)
              (BASE_URL ++ "/" ++ pyStr pkv ++ pyStr epv) >>= fun _ =>
            responseJson
              (remote ⟨"POST", BASE_URL ++ "/" ++ pyStr pkv ++ pyStr epv, pyJsonBody bd⟩))) t :=
    rfl
  rw [e1]
  exact roundTrip _ _ _

theorem mrb_put (remote : HttpRequest → HttpResponse) (pkv epv bd : PyVal)
    (t : Trace) :
    makeRequestBound remote pkv epv (.str "PUT") bd t =
      ({ t with httpRequests := t.httpRequests ++
          [⟨"PUT", BASE_URL ++ "/" ++ pyStr pkv ++ pyStr epv, pyJsonBody bd⟩] },
       httpOutcome
         (remote ⟨"PUT", BASE_URL ++ "/" ++ pyStr pkv ++ pyStr epv, pyJsonBody bd⟩)
         (BASE_URL ++ "/" ++ pyStr pkv ++ pyStr epv)) := by
  have e1 : makeRequestBound remote pkv epv (.str "PUT") bd t =
      (logHttp ⟨"PUT", BASE_URL ++ "/" ++ pyStr pkv ++ pyStr epv, pyJsonBody bd⟩ >>=
        fun _ =>
          (raiseForStatus
              (remote ⟨"PUT", BASE_URL ++ "/" ++ pyStr pkv ++ pyStr epv, pyJsonBody bd⟩)
              (BASE_URL ++ "/" ++ pyStr pkv ++ pyStr epv) >>= fun _ =>
            responseJson
              (remote ⟨"PUT", BASE_URL ++ "/" ++ pyStr pkv ++ pyStr epv, pyJsonBody bd⟩))) t :=
    rfl
  rw [e1]
  exact roundTrip _ _ _

theorem mrb_other (remote : HttpRequest → HttpResponse) (pkv epv bd : PyVal)
    (m : String) (t : Trace)
    (h1 : m ≠ "GET") (h2 : m ≠ "POST") (h3 : m ≠ "PUT") :
    makeRequestBound remote pkv epv (.str m) bd t =
      (t, Except.error (.valueError ("Unsupported method: " ++ m))) := by
  have g1 : pyEq (.str m) (.str "GET") = false := by
    simp only [pyEq, beq_eq_false_iff_ne]
    exact h1
  have g2 : pyEq (.str m) (.str "POST") = false := by
    simp only [pyEq, beq_eq_false_iff_ne]
    exact h2
  have g3 : pyEq (.str m) (.str "PUT") = false := by
    simp only [pyEq, beq_eq_false_iff_ne]
    exact h3
  unfold makeRequestBound
  rw [g1, g2, g3]
  rfl

theorem httpOutcome_ok {resp : HttpResponse} {url : String} {v : PyVal}
    (h1 : 200 ≤ resp.status) (h2 : resp.status < 300) (hj : resp.json = some v) :
    httpOutcome resp url = Except.ok v := by
  unfold httpOutcome
  rw [if_pos ⟨h1, h2⟩, hj]

theorem httpOutcome_err {resp : HttpResponse} {url : String}
    (h : ¬(200 ≤ resp.status ∧ resp.status < 300)) :
    httpOutcome resp url =
      Except.error (.httpStatusError resp.status (statusErrMsg resp.status url)) := by
  unfold httpOutcome
  rw [if_neg h]

theorem runCallTool_of_body {remote : HttpRequest → HttpResponse}
    {name : String} {args : List (String × PyVal)} {t1 : Trace} {e : PyErr}
    (hb : call_tool_body remote name args ⟨[], []⟩ = (t1, Except.error e)) :
    runCallTool remote name args =
      (t1, Except.ok [⟨"text", "Error: " ++ pyErrStr e⟩]) := by
  unfold runCallTool call_tool pyTry
  rw [hb]
  rfl

/-- Claim C1: for every tool name and every argument mapping, `call_tool`
returns a sequence of exactly one `TextContent` item; every failure raised
inside the invocation is caught at the invocation boundary and converted to
a textual result prefixed "Error: "; no exception escapes `call_tool` (the
outer result is always `Except.ok`). -/
theorem c1_call_tool_single_item (remote : HttpRequest → HttpResponse)
    (name : String) (args : List (String × PyVal)) :
    ∃ tc : TextContent, (runCallTool remote name args).2 = Except.ok [tc] ∧
      ∀ e, (call_tool_body remote name args ⟨[], []⟩).2 = Except.error e →
        tc.text = "Error: " ++ pyErrStr e := by
  obtain ⟨t1, e, hb, hr, _⟩ := call_tool_run remote name args
  refine ⟨⟨"text", "Error: " ++ pyErrStr e⟩, by rw [hr], ?_⟩
  intro e' he'
  rw [hb] at he'
  have h2 : (Except.error e : Except PyErr (List TextContent)) = Except.error e' := he'
  injection h2 with h3
  rw [← h3]

/-- Witness for C1: at the `get_statuses` invocation with no arguments, the
result is one item and the inner `TypeError` is rendered with the
"Error: " head. -/
theorem c1_witness :
    ∃ tc : TextContent,
      (runCallTool remote200 "freshrelease_get_statuses" []).2 = Except.ok [tc] ∧
      tc.text =
        "Error: make_request() missing 1 required positional argument: \x27endpoint\x27" := by
  obtain ⟨tc, h1, h2⟩ := c1_call_tool_single_item remote200 "freshrelease_get_statuses" []
  exact ⟨tc, h1, h2 _ rfl⟩

/-- Claim C2: for every declared tool name and every argument mapping, the
invocation performs zero outbound HTTP requests and returns a single
"Error: "-prefixed text result — each GET-style branch calls `make_request`
with a single positional argument (its required `endpoint` parameter stays
unbound), each reachable POST/PUT branch passes the body dict where the
`method` parameter binds, and `create_issue` fails before calling the
helper at all. -/
theorem c2_declared_tools_no_http (remote : HttpRequest → HttpResponse)
    (name : String) (args : List (String × PyVal)) (_h : name ∈ toolNames) :
    ∃ s, (runCallTool remote name args).2 = Except.ok [⟨"text", "Error: " ++ s⟩] ∧
      (runCallTool remote name args).1.httpRequests = [] := by
  obtain ⟨t1, e, hb, hr, hh⟩ := call_tool_run remote name args
  exact ⟨pyErrStr e, by rw [hr], by rw [hr]; exact hh⟩

/-- Witness for C2: `get_users` is declared, and its invocation yields an
error text with zero HTTP requests. -/
theorem c2_witness :
    "freshrelease_get_users" ∈ toolNames ∧
    ∃ s, (runCallTool remote200 "freshrelease_get_users" []).2 =
        Except.ok [⟨"text", "Error: " ++ s⟩] ∧
      (runCallTool remote200 "freshrelease_get_users" []).1.httpRequests = [] :=
  ⟨by decide, c2_declared_tools_no_http remote200 "freshrelease_get_users" [] (by decide)⟩

/-- Claim C3, code-bug evidence: invoking `get_issue` with
`issue_key="FBOTS-47941"` performs ZERO outbound HTTP requests and returns
an error text, not the pretty-printed remote response — `call_tool` passes
the single positional argument `"/issues/FBOTS-47941"` to `make_request`,
whose required `endpoint` parameter stays unbound, so binding raises
`TypeError` before any network call.  The claimed GET to
`/issues/FBOTS-47941` never happens. -/
theorem c3_get_issue_no_get :
    runCallTool remote200 "freshrelease_get_issue"
        [("issue_key", .str "FBOTS-47941")] =
      (⟨[[.str "/issues/FBOTS-47941"]], []⟩,
       Except.ok [⟨"text",
         "Error: make_request() missing 1 required positional argument: \x27endpoint\x27"⟩]) :=
  rfl

/-- Claim C4, code-bug evidence: invoking `create_issue` with the five
required fields (and `custom_fields` omitted) raises
`NameError: name PROJECT_KEY is not defined` while building the body, so no
POST to `/issues` is attempted: the helper is never called and zero HTTP
requests are performed. -/
theorem c4_create_issue_no_post :
    runCallTool remote200 "freshrelease_create_issue" argsCreate =
      (⟨[], []⟩,
       Except.ok [⟨"text", "Error: name \x27PROJECT_KEY\x27 is not defined"⟩]) :=
  rfl

/-- Claim C5: for every `update_issue` invocation whose arguments contain
`issue_key`, the body dict handed to the request helper for the PUT is
exactly `{issue: {key: issue_key}}` extended with exactly those of
`description`, `issue_type_id`, `custom_field` whose source argument is
present (`c5Body`, written from the claim's words); omitted optional
arguments contribute no key. -/
theorem c5_update_issue_put_body (remote : HttpRequest → HttpResponse)
    (args : List (String × PyVal)) (k : PyVal)
    (h : dictLookup args "issue_key" = some k) :
    (runCallTool remote "freshrelease_update_issue" args).1.helperCalls =
      [[.str ("/issues/" ++ pyStr k), .str "PUT", c5Body args k]] := by
  rw [runCallTool_of_body (body_update_some remote args ⟨[], []⟩ k h)]
  rfl

/-- Witness for C5: with only `issue_key="X"` and `description="new"` the
constructed PUT body is `{issue: {key: "X", description: "new"}}` — the
`issue_type_id` and `custom_field` keys are absent. -/
theorem c5_witness :
    dictLookup argsUpdateX "issue_key" = some (.str "X") ∧
    (runCallTool remote200 "freshrelease_update_issue" argsUpdateX).1.helperCalls =
      [[.str "/issues/X", .str "PUT",
        .dict [("issue", .dict [("key", .str "X"), ("description", .str "new")])]]] :=
  ⟨rfl, c5_update_issue_put_body remote200 argsUpdateX (.str "X") rfl⟩

/-- Claim C6: invoking any tool name not in the Catalog returns a single
text result "Error: Unknown tool: {name}" and performs zero outbound HTTP
calls (and zero helper calls); `call_tool` returns normally, so the process
continues handling subsequent invocations. -/
theorem c6_unknown_tool (remote : HttpRequest → HttpResponse) (name : String)
    (args : List (String × PyVal)) (h : name ∉ toolNames) :
    runCallTool remote name args =
      (⟨[], []⟩, Except.ok [⟨"text", "Error: Unknown tool: " ++ name⟩]) := by
  rw [show toolNames =
      [ "freshrelease_get_users", "freshrelease_get_statuses"
      , "freshrelease_get_issue_types", "freshrelease_get_issue"
      , "freshrelease_create_issue", "freshrelease_update_issue"
      , "freshrelease_get_comments", "freshrelease_add_comment" ] from rfl] at h
  simp only [List.mem_cons, List.not_mem_nil, or_false, not_or] at h
  obtain ⟨h1, h2, h3, h4, h5, h6, h7, h8⟩ := h
  rw [runCallTool_of_body
    (body_unknown remote name args ⟨[], []⟩ h1 h2 h3 h4 h5 h6 h7 h8)]
  simp only [pyErrStr]
  rw [← String.append_assoc]
  rfl

/-- Witness for C6: the undeclared name `freshrelease_delete_issue` yields
the unknown-tool error with an empty trace. -/
theorem c6_witness :
    "freshrelease_delete_issue" ∉ toolNames ∧
    runCallTool remote200 "freshrelease_delete_issue" [] =
      (⟨[], []⟩,
       Except.ok [⟨"text", "Error: Unknown tool: freshrelease_delete_issue"⟩]) :=
  ⟨by decide, c6_unknown_tool remote200 "freshrelease_delete_issue" [] (by decide)⟩

/-- Claim C8: for every `get_users` invocation, the path handed to the
request helper is exactly `/users?page={page}` with `page` the supplied
argument or `1` when absent; no outbound HTTP request is performed; and the
`limit` argument — declared in the schema with default 30 — never reaches
the query string (the helper call is a function of the `page` argument
alone). -/
theorem c8_get_users_path (remote : HttpRequest → HttpResponse)
    (args : List (String × PyVal)) :
    (runCallTool remote "freshrelease_get_users" args).1.helperCalls =
      [[.str ("/users?page=" ++ pyStr (dictGet args "page" (.int 1)))]] ∧
    (runCallTool remote "freshrelease_get_users" args).1.httpRequests = [] ∧
    schemaPropDefault (toolSchema "freshrelease_get_users") "limit" = some (.int 30) := by
  refine ⟨?_, ?_, rfl⟩ <;>
    (rw [runCallTool_of_body (body_get_users remote args ⟨[], []⟩)]; try rfl)

/-- Claim C10: for every argument mapping, invoking `create_issue` returns
an "Error: "-prefixed text and performs no outbound HTTP call — indeed no
call to the request helper at all; and whenever `title` and `description`
are present the failure is precisely the `NameError` from the undefined
name `PROJECT_KEY` referenced in the body construction. -/
theorem c10_create_issue_always_errors (remote : HttpRequest → HttpResponse)
    (args : List (String × PyVal)) :
    (∃ s, (runCallTool remote "freshrelease_create_issue" args).2 =
        Except.ok [⟨"text", "Error: " ++ s⟩] ∧
      (runCallTool remote "freshrelease_create_issue" args).1 = ⟨[], []⟩) ∧
    (∀ a b, dictLookup args "title" = some a →
      dictLookup args "description" = some b →
      (call_tool_body remote "freshrelease_create_issue" args ⟨[], []⟩).2 =
        Except.error (.nameError "name \x27PROJECT_KEY\x27 is not defined")) := by
  constructor
  · rcases ht : dictLookup args "title" with _ | a
    · exact ⟨pyErrStr (.keyError "title"),
        by rw [runCallTool_of_body (body_create_no_title remote args ⟨[], []⟩ ht)],
        by rw [runCallTool_of_body (body_create_no_title remote args ⟨[], []⟩ ht)]⟩
    rcases hd : dictLookup args "description" with _ | b
    · exact ⟨pyErrStr (.keyError "description"),
        by rw [runCallTool_of_body (body_create_no_description remote args ⟨[], []⟩ a ht hd)],
        by rw [runCallTool_of_body (body_create_no_description remote args ⟨[], []⟩ a ht hd)]⟩
    · exact ⟨pyErrStr (.nameError "name \x27PROJECT_KEY\x27 is not defined"),
        by rw [runCallTool_of_body (body_create_name_error remote args ⟨[], []⟩ a b ht hd)],
        by rw [runCallTool_of_body (body_create_name_error remote args ⟨[], []⟩ a b ht hd)]⟩
  · intro a b ht hd
    rw [body_create_name_error remote args ⟨[], []⟩ a b ht hd]

/-- Witness for C10: with all five required fields supplied the inner
failure is exactly the `PROJECT_KEY` NameError, and the result is an error
text with an empty trace. -/
theorem c10_witness :
    (∃ s, (runCallTool remote200 "freshrelease_create_issue" argsCreate).2 =
        Except.ok [⟨"text", "Error: " ++ s⟩] ∧
      (runCallTool remote200 "freshrelease_create_issue" argsCreate).1 = ⟨[], []⟩) ∧
    (call_tool_body remote200 "freshrelease_create_issue" argsCreate ⟨[], []⟩).2 =
      Except.error (.nameError "name \x27PROJECT_KEY\x27 is not defined") := by
  obtain ⟨h1, h2⟩ := c10_create_issue_always_errors remote200 argsCreate
  exact ⟨h1, h2 _ _ rfl rfl⟩

/-- Claim C7: the request helper builds the URL as
`{baseUrl}/{scopeKey}{endpointPath}`; GET sends no body while POST and PUT
send the given body; any method other than GET/POST/PUT fails before any
network call; a 2xx response yields its parsed JSON body, and any
non-success status is signalled as a failure to the caller. -/
theorem c7_make_request_contract (remote : HttpRequest → HttpResponse)
    (pk ep m : String) (bd : PyVal) :
    ((makeRequestBound remote (.str pk) (.str ep) (.str "GET") bd
        ⟨[], []⟩).1.httpRequests =
      [⟨"GET", BASE_URL ++ "/" ++ pk ++ ep, Option.none⟩]) ∧
    (bd ≠ .none →
      (makeRequestBound remote (.str pk) (.str ep) (.str "POST") bd
          ⟨[], []⟩).1.httpRequests =
        [⟨"POST", BASE_URL ++ "/" ++ pk ++ ep, some bd⟩]) ∧
    (bd ≠ .none →
      (makeRequestBound remote (.str pk) (.str ep) (.str "PUT") bd
          ⟨[], []⟩).1.httpRequests =
        [⟨"PUT", BASE_URL ++ "/" ++ pk ++ ep, some bd⟩]) ∧
    (m ≠ "GET" → m ≠ "POST" → m ≠ "PUT" →
      makeRequestBound remote (.str pk) (.str ep) (.str m) bd ⟨[], []⟩ =
        (⟨[], []⟩, Except.error (.valueError ("Unsupported method: " ++ m)))) ∧
    (∀ req v,
      (makeRequestBound remote (.str pk) (.str ep) (.str m) bd
          ⟨[], []⟩).1.httpRequests = [req] →
      200 ≤ (remote req).status → (remote req).status < 300 →
      (remote req).json = some v →
      (makeRequestBound remote (.str pk) (.str ep) (.str m) bd ⟨[], []⟩).2 =
        Except.ok v) ∧
    (∀ req,
      (makeRequestBound remote (.str pk) (.str ep) (.str m) bd
          ⟨[], []⟩).1.httpRequests = [req] →
      ¬(200 ≤ (remote req).status ∧ (remote req).status < 300) →
      (makeRequestBound remote (.str pk) (.str ep) (.str m) bd ⟨[], []⟩).2 =
        Except.error (.httpStatusError (remote req).status
          (statusErrMsg (remote req).status (BASE_URL ++ "/" ++ pk ++ ep)))) := by
  refine ⟨?_, ?_, ?_, ?_, ?_, ?_⟩
  · rw [mrb_get remote (.str pk) (.str ep) bd ⟨[], []⟩]
    rfl
  · intro hb
    rw [mrb_post remote (.str pk) (.str ep) bd ⟨[], []⟩, pyJsonBody_ne hb]
    rfl
  · intro hb
    rw [mrb_put remote (.str pk) (.str ep) bd ⟨[], []⟩, pyJsonBody_ne hb]
    rfl
  · intro hg hp hu
    exact mrb_other remote (.str pk) (.str ep) bd m ⟨[], []⟩ hg hp hu
  · intro req v hreq hs1 hs2 hj
    by_cases hg : m = "GET"
    · subst hg
      rw [mrb_get remote (.str pk) (.str ep) bd ⟨[], []⟩] at hreq
      simp only [List.nil_append, List.cons.injEq, and_true] at hreq
      subst hreq
      rw [mrb_get remote (.str pk) (.str ep) bd ⟨[], []⟩]
      exact httpOutcome_ok hs1 hs2 hj
    by_cases hp : m = "POST"
    · subst hp
      rw [mrb_post remote (.str pk) (.str ep) bd ⟨[], []⟩] at hreq
      simp only [List.nil_append, List.cons.injEq, and_true] at hreq
      subst hreq
      rw [mrb_post remote (.str pk) (.str ep) bd ⟨[], []⟩]
      exact httpOutcome_ok hs1 hs2 hj
    by_cases hu : m = "PUT"
    · subst hu
      rw [mrb_put remote (.str pk) (.str ep) bd ⟨[], []⟩] at hreq
      simp only [List.nil_append, List.cons.injEq, and_true] at hreq
      subst hreq
      rw [mrb_put remote (.str pk) (.str ep) bd ⟨[], []⟩]
      exact httpOutcome_ok hs1 hs2 hj
    · rw [mrb_other remote (.str pk) (.str ep) bd m ⟨[], []⟩ hg hp hu] at hreq
      simp at hreq
  · intro req hreq hbad
    by_cases hg : m = "GET"
    · subst hg
      rw [mrb_get remote (.str pk) (.str ep) bd ⟨[], []⟩] at hreq
      simp only [List.nil_append, List.cons.injEq, and_true] at hreq
      subst hreq
      rw [mrb_get remote (.str pk) (.str ep) bd ⟨[], []⟩]
      exact httpOutcome_err hbad
    by_cases hp : m = "POST"
    · subst hp
      rw [mrb_post remote (.str pk) (.str ep) bd ⟨[], []⟩] at hreq
      simp only [List.nil_append, List.cons.injEq, and_true] at hreq
      subst hreq
      rw [mrb_post remote (.str pk) (.str ep) bd ⟨[], []⟩]
      exact httpOutcome_err hbad
    by_cases hu : m = "PUT"
    · subst hu
      rw [mrb_put remote (.str pk) (.str ep) bd ⟨[], []⟩] at hreq
      simp only [List.nil_append, List.cons.injEq, and_true] at hreq
      subst hreq
      rw [mrb_put remote (.str pk) (.str ep) bd ⟨[], []⟩]
      exact httpOutcome_err hbad
    · rw [mrb_other remote (.str pk) (.str ep) bd m ⟨[], []⟩ hg hp hu] at hreq
      simp at hreq

/-- Witness for C7: a GET through the 200 oracle performs one request at
the composed URL and returns the parsed body; a DELETE fails before any
network call; a GET through the 404 oracle surfaces the status failure. -/
theorem c7_witness :
    ((makeRequestBound remote200 (.str "PRJ") (.str "/statuses") (.str "GET")
        .none ⟨[], []⟩).1.httpRequests =
      [⟨"GET", "https://freshworks.freshrelease.com/PRJ/statuses", Option.none⟩]) ∧
    ((makeRequestBound remote200 (.str "PRJ") (.str "/statuses") (.str "GET")
        .none ⟨[], []⟩).2 = Except.ok (.dict [])) ∧
    (makeRequestBound remote200 (.str "PRJ") (.str "/statuses") (.str "DELETE")
        .none ⟨[], []⟩ =
      (⟨[], []⟩, Except.error (.valueError "Unsupported method: DELETE"))) ∧
    ((makeRequestBound remote404 (.str "PRJ") (.str "/x") (.str "GET")
        .none ⟨[], []⟩).2 =
      Except.error (.httpStatusError 404
        (statusErrMsg 404 "https://freshworks.freshrelease.com/PRJ/x"))) := by
  obtain ⟨hget, -, -, -, hok, -⟩ :=
    c7_make_request_contract remote200 "PRJ" "/statuses" "GET" .none
  obtain ⟨-, -, -, hother, -, -⟩ :=
    c7_make_request_contract remote200 "PRJ" "/statuses" "DELETE" .none
  obtain ⟨-, -, -, -, -, herr⟩ :=
    c7_make_request_contract remote404 "PRJ" "/x" "GET" .none
  refine ⟨hget, ?_, ?_, ?_⟩
  · exact hok ⟨"GET", "https://freshworks.freshrelease.com/PRJ/statuses", Option.none⟩
      (.dict []) rfl (by decide) (by decide) rfl
  · exact hother (by decide) (by decide) (by decide)
  · exact herr ⟨"GET", "https://freshworks.freshrelease.com/PRJ/x", Option.none⟩
      rfl (by decide)

/-- Claim C9 counterexample: `listTools()` returns no descriptor named
`get_users` — the code names every tool with a `freshrelease_` head that the
section 4.1 table omits — and the `create_issue` input contract declares no
`default` for `custom_fields` (its `{}` default is applied by the
dispatcher, not declared in the schema), contradicting the claim's reading
of the table. -/
theorem c9_counterexample :
    countName "get_users" = 0 ∧
    schemaPropDefault (toolSchema "freshrelease_create_issue") "custom_fields" =
      Option.none :=
  ⟨rfl, rfl⟩

/-- Claim C9 as amended: `list_tools` is a pure constant (hence
deterministic and side-effect-free), returns eight descriptors, one per
table row with the `freshrelease_` head on each name; required and optional
properties match the table, with `page` defaulting to 1 and `limit` to 30;
`custom_fields` is optional but declares no schema default. -/
theorem c9_catalog_amended :
    list_tools.length = 8 ∧
    countName "freshrelease_get_users" = 1 ∧
    countName "freshrelease_get_statuses" = 1 ∧
    countName "freshrelease_get_issue_types" = 1 ∧
    countName "freshrelease_get_issue" = 1 ∧
    countName "freshrelease_create_issue" = 1 ∧
    countName "freshrelease_update_issue" = 1 ∧
    countName "freshrelease_get_comments" = 1 ∧
    countName "freshrelease_add_comment" = 1 ∧
    schemaRequired (toolSchema "freshrelease_get_users") = Option.none ∧
    schemaPropNames (toolSchema "freshrelease_get_users") = ["page", "limit"] ∧
    schemaPropDefault (toolSchema "freshrelease_get_users") "page" = some (.int 1) ∧
    schemaPropDefault (toolSchema "freshrelease_get_users") "limit" = some (.int 30) ∧
    schemaPropNames (toolSchema "freshrelease_get_statuses") = [] ∧
    schemaRequired (toolSchema "freshrelease_get_statuses") = Option.none ∧
    schemaPropNames (toolSchema "freshrelease_get_issue_types") = [] ∧
    schemaRequired (toolSchema "freshrelease_get_issue_types") = Option.none ∧
    schemaPropNames (toolSchema "freshrelease_get_issue") = ["issue_key"] ∧
    schemaRequired (toolSchema "freshrelease_get_issue") =
      some (.list [.str "issue_key"]) ∧
    schemaPropNames (toolSchema "freshrelease_create_issue") =
      ["title", "description", "issue_type_id", "owner_id", "project_id",
        "custom_fields"] ∧
    schemaRequired (toolSchema "freshrelease_create_issue") =
      some (.list [.str "title", .str "description", .str "issue_type_id",
        .str "owner_id", .str "project_id"]) ∧
    schemaPropDefault (toolSchema "freshrelease_create_issue") "custom_fields" =
      Option.none ∧
    schemaPropNames (toolSchema "freshrelease_update_issue") =
      ["issue_key", "description", "issue_type_id", "custom_fields"] ∧
    schemaRequired (toolSchema "freshrelease_update_issue") =
      some (.list [.str "issue_key"]) ∧
    schemaPropNames (toolSchema "freshrelease_get_comments") = ["issue_id"] ∧
    schemaRequired (toolSchema "freshrelease_get_comments") =
      some (.list [.str "issue_id"]) ∧
    schemaPropNames (toolSchema "freshrelease_add_comment") =
      ["issue_id", "content"] ∧
    schemaRequired (toolSchema "freshrelease_add_comment") =
      some (.list [.str "issue_id", .str "content"]) :=
  ⟨rfl, rfl, rfl, rfl, rfl, rfl, rfl, rfl, rfl, rfl, rfl, rfl, rfl, rfl,
    rfl, rfl, rfl, rfl, rfl, rfl, rfl, rfl, rfl, rfl, rfl, rfl, rfl, rfl⟩

end Freshrelease
